import Mathlib

/-!
Shallow embedding of `citest/service_testing/http_agent.py`.

The embedding models the HTTP agent module faithfully:
* `HttpResponseType` is the namedtuple `(retcode, output, error)`; the
  Python `None` fields become `Option String`.
* The network is an oracle `Net` mapping the request (url, method, data,
  headers) to an outcome: a successful reply (`urlopen` returns), an
  HTTP error reply (`urllib2.HTTPError` raised) or a transport failure
  (`urllib2.URLError` raised).  Reply codes from a real HTTP exchange
  are natural numbers; the sentinel -1 exists only in `HttpResponseType`.
* Python exceptions escaping a routine are modelled with `Except PyErr`.
* Python class objects passed as `status_class` are modelled by the
  enumeration `StatusClass`; an object records its runtime class in a
  `statusClass` field.
* The values acceptable where an agent is expected are modelled by
  `PyAgentVal`: `None`, a genuine `HttpAgent`, or any other Python
  value, carrying its truthiness and class name.
-/

/-- Python exceptions that the modelled code can raise. -/
inductive PyErr where
  | indexError
  | typeError (msg : String)
  | attributeError (className : String)
deriving DecidableEq, Repr

/-- The runtime class of an operation-status object.  `other` stands for
any further user-defined subclass. -/
inductive StatusClass where
  | httpOperationStatus
  | synchronousHttpOperationStatus
  | other (name : String)
deriving DecidableEq, Repr

/-- The namedtuple `HttpResponseType(retcode, output, error)`. -/
structure HttpResponseType where
  retcode : Int
  output : Option String
  error : Option String
deriving DecidableEq, Repr

/-- `HttpResponseType.ok`: `self.retcode >= 200 and self.retcode < 300`. -/
def HttpResponseType.ok (r : HttpResponseType) : Bool :=
  decide (200 ≤ r.retcode ∧ r.retcode < 300)

/-- The state of `HttpAgent`: `self._protocol`, `self._address` and the
private `self.__status_class`, which `HttpAgent.__init__` always sets to
`HttpOperationStatus`. -/
structure HttpAgent where
  protocol : String
  address : String
  statusClass : StatusClass
deriving DecidableEq, Repr

/-- `HttpAgent.__init__(address, protocol)`: stores the configuration and
sets the private status class to `HttpOperationStatus`. -/
def HttpAgent.init (address : String) (protocol : String) : HttpAgent :=
  { protocol := protocol, address := address,
    statusClass := StatusClass.httpOperationStatus }

/-- A Python value passed where an agent is expected: `None`, an actual
`HttpAgent`, or any other object with its truthiness and class name. -/
inductive PyAgentVal where
  | pyNone
  | http (a : HttpAgent)
  | otherVal (truthy : Bool) (className : String)
deriving DecidableEq, Repr

/-- Python truthiness of an agent value (`None` and falsy objects such as
`0` are falsy; `HttpAgent` instances are truthy). -/
def PyAgentVal.truthy : PyAgentVal → Bool
  | .pyNone => false
  | .http _ => true
  | .otherVal t _ => t

/-- The `isinstance(x, HttpAgent)` test. -/
def PyAgentVal.isHttpAgent : PyAgentVal → Bool
  | .http _ => true
  | _ => false

/-- The Python `x.__class__.__name__`. -/
def PyAgentVal.className : PyAgentVal → String
  | .pyNone => "NoneType"
  | .http _ => "HttpAgent"
  | .otherVal _ n => n

/-- Outcome of attempting the HTTP exchange for one request. -/
inductive HttpOutcome where
  | success (code : Nat) (body : String)
  | httpError (code : Nat) (body : String)
  | urlError (msg : String)
deriving DecidableEq, Repr

/-- The network oracle: url, method, payload and headers determine the
outcome of the exchange. -/
def Net : Type :=
  String → String → Option String → List (String × String) → HttpOutcome

/-- URL construction of `_send_http_request` (lines 167-169): strip one
leading slash from the path if present, then format
`protocol://address/path`.  The empty-path case is unreachable there
because `path[0]` raises `IndexError` first. -/
def HttpAgent.requestUrl (a : HttpAgent) (path : String) : String :=
  let path1 :=
    match path.data with
    | [] => path
    | c :: rest => if c = '/' then String.mk rest else path
  a.protocol ++ "://" ++ a.address ++ "/" ++ path1

/-- `HttpAgent._send_http_request(path, http_type, data, headers, trace)`.
Evaluating `path[0]` on an empty path raises `IndexError`.  Otherwise the
request is sent and the outcome classified: a reply from `urlopen` gives
`(code, body, None)`, an `HTTPError` gives `(code, None, body)`, and a
`URLError` gives `(-1, None, str(e))`.  Trace logging has no effect on
the result. -/
def HttpAgent.sendHttpRequest (a : HttpAgent) (net : Net) (path : String)
    (httpType : String) (data : Option String)
    (headers : List (String × String)) (trace : Bool) :
    Except PyErr HttpResponseType :=
  match path.data with
  | [] => .error PyErr.indexError
  | _ :: _ =>
    match net (a.requestUrl path) httpType data headers with
    | .success code body =>
        .ok { retcode := (code : Int), output := some body, error := none }
    | .httpError code body =>
        .ok { retcode := (code : Int), output := none, error := some body }
    | .urlError msg =>
        .ok { retcode := -1, output := none, error := some msg }

/-- `HttpAgent.post(path, data, content_type, trace)`. -/
def HttpAgent.post (a : HttpAgent) (net : Net) (path : String)
    (data : String) (contentType : String) (trace : Bool) :
    Except PyErr HttpResponseType :=
  a.sendHttpRequest net path "POST" (some data)
    [("Content-Type", contentType)] trace

/-- `HttpAgent.delete(path, data, content_type, trace)`. -/
def HttpAgent.delete (a : HttpAgent) (net : Net) (path : String)
    (data : String) (contentType : String) (trace : Bool) :
    Except PyErr HttpResponseType :=
  a.sendHttpRequest net path "DELETE" (some data)
    [("Content-Type", contentType)] trace

/-- `HttpAgent.get(path, trace)`. -/
def HttpAgent.get (a : HttpAgent) (net : Net) (path : String)
    (trace : Bool) : Except PyErr HttpResponseType :=
  a.sendHttpRequest net path "GET" none [] trace

/-- State of a `BaseHttpOperation` (and of the `HttpPostOperation` and
`HttpDeleteOperation` subclasses, distinguished by `verb`).  The `title`
and `agent` fields belong to the base `AgentOperation` class, which is
outside this module.  Modelled from the spec: the base Operation type
provides `title`, an `agent` accessor returning the value the operation
was constructed with or later bound to, and `bind_agent` assigning it. -/
inductive HttpVerb where
  | post
  | delete
deriving DecidableEq, Repr

/-- Fields of a constructed `BaseHttpOperation`. -/
structure BaseHttpOperation where
  verb : HttpVerb
  title : String
  path : String
  data : String
  agent : PyAgentVal
  statusClassField : Option StatusClass
deriving DecidableEq, Repr

/-- `BaseHttpOperation.__init__(title, path, data, http_agent,
status_class)`.  The base constructor stores the agent; then, if
`http_agent` is truthy and not an `HttpAgent`, a `TypeError` is raised.
The Python default for `status_class` is the class `HttpOperationStatus`,
but callers may pass `None` explicitly, which is stored as given. -/
def BaseHttpOperation.init (verb : HttpVerb) (title : String)
    (path : String) (data : String) (httpAgent : PyAgentVal)
    (statusClass : Option StatusClass) :
    Except PyErr BaseHttpOperation :=
  if httpAgent.truthy && !httpAgent.isHttpAgent then
    .error (PyErr.typeError ("agent no HttpAgent: " ++ httpAgent.className))
  else
    .ok { verb := verb, title := title, path := path, data := data,
          agent := httpAgent, statusClassField := statusClass }

/-- `HttpAgent.new_post_operation(title, path, data, status_class)`:
constructs `HttpPostOperation(title, path, data, self,
status_class=status_class)`.  A caller that omits `status_class` passes
`none`, matching the Python default `None` at this factory. -/
def HttpAgent.new_post_operation (a : HttpAgent) (title : String)
    (path : String) (data : String) (statusClass : Option StatusClass) :
    Except PyErr BaseHttpOperation :=
  BaseHttpOperation.init HttpVerb.post title path data (PyAgentVal.http a)
    statusClass

/-- `HttpAgent.new_delete_operation(title, path, data, status_class)`. -/
def HttpAgent.new_delete_operation (a : HttpAgent) (title : String)
    (path : String) (data : String) (statusClass : Option StatusClass) :
    Except PyErr BaseHttpOperation :=
  BaseHttpOperation.init HttpVerb.delete title path data (PyAgentVal.http a)
    statusClass

/-- State of an `HttpOperationStatus` object: the originating operation,
the held `HttpResponseType`, and the runtime class it was instantiated
as. -/
structure HttpOperationStatus where
  operation : BaseHttpOperation
  httpResponse : HttpResponseType
  statusClass : StatusClass
deriving DecidableEq, Repr

/-- Property `HttpOperationStatus.finished`: always `True`. -/
def HttpOperationStatus.finished (_ : HttpOperationStatus) : Bool :=
  true

/-- Property `HttpOperationStatus.finished_ok`: delegates to
`self._http_response.ok()`. -/
def HttpOperationStatus.finished_ok (s : HttpOperationStatus) : Bool :=
  s.httpResponse.ok

/-- Property `HttpOperationStatus.detail`: `self._http_response.output`. -/
def HttpOperationStatus.detail (s : HttpOperationStatus) : Option String :=
  s.httpResponse.output

/-- Property `HttpOperationStatus.error`: `self._http_response.error`. -/
def HttpOperationStatus.error (s : HttpOperationStatus) : Option String :=
  s.httpResponse.error

/-- Property `SynchronousHttpOperationStatus.id`: always `None`. -/
def SynchronousHttpOperationStatus.id (_ : HttpOperationStatus) :
    Option String :=
  none

/-- Property `SynchronousHttpOperationStatus.timed_out`: always
`False`. -/
def SynchronousHttpOperationStatus.timed_out (_ : HttpOperationStatus) :
    Bool :=
  false

/-- `HttpAgent._new_invoke_status(operation, http_response)`: instantiates
the private `self.__status_class` set by `HttpAgent.__init__`; the class
the operation was created with plays no part here. -/
def HttpAgent.newInvokeStatus (a : HttpAgent) (op : BaseHttpOperation)
    (resp : HttpResponseType) : HttpOperationStatus :=
  { operation := op, httpResponse := resp, statusClass := a.statusClass }

/-- `HttpPostOperation._do_invoke(agent, trace)` and the `HttpDeleteOperation`
variant: call `agent.post` resp. `agent.delete` with the operation path
and data, then wrap the response with `agent._new_invoke_status`.  A
`None` or other non-agent value has no such attribute, so attribute
lookup raises `AttributeError`. -/
def BaseHttpOperation.doInvoke (op : BaseHttpOperation) (net : Net)
    (agent : PyAgentVal) (trace : Bool) :
    Except PyErr HttpOperationStatus :=
  match agent with
  | .http a =>
    let send :=
      match op.verb with
      | .post => a.post net op.path op.data "application/json" trace
      | .delete => a.delete net op.path op.data "application/json" trace
    match send with
    | .error e => .error e
    | .ok resp => .ok (a.newInvokeStatus op resp)
  | v => .error (PyErr.attributeError v.className)

/-- `BaseHttpOperation.execute(agent, trace)`: if `self.agent` is falsy,
require the `agent` argument to be an `HttpAgent` (else `TypeError`) and
bind it; then call `self._do_invoke(agent, trace)` with the ARGUMENT
`agent`, not the bound one, and return the status.  Returns the possibly
rebound operation together with the status. -/
def BaseHttpOperation.execute (op : BaseHttpOperation) (net : Net)
    (agent : PyAgentVal) (trace : Bool) :
    Except PyErr (BaseHttpOperation × HttpOperationStatus) :=
  let step :=
    if !op.agent.truthy then
      if !agent.isHttpAgent then
        Except.error
          (PyErr.typeError ("agent no HttpAgent: " ++ agent.className))
      else
        Except.ok { op with agent := agent }
    else
      Except.ok op
  match step with
  | .error e => .error e
  | .ok op1 =>
    match op1.doInvoke net agent trace with
    | .error e => .error e
    | .ok status => .ok (op1, status)

/-! Sample values used by witnesses. -/

/-- A network on which every request succeeds with code 200. -/
def netAlwaysOk : Net := fun _ _ _ _ => HttpOutcome.success 200 "body"

/-- A sample constructed operation, used by witnesses. -/
def sampleOperation : BaseHttpOperation :=
  { verb := HttpVerb.post, title := "t", path := "p", data := "d",
    agent := PyAgentVal.pyNone, statusClassField := none }

/-- Rebuilding a string from its character data gives it back. -/
theorem stringMk_data (p : String) : String.mk p.data = p := by
  cases p
  rfl

/-- C10: for the empty string path, the public verbs post, delete, get and
the transmission routine all raise IndexError from the leading-slash check
before any request is constructed or sent, independently of the network. -/
theorem empty_path_raises_index_error (a : HttpAgent) (net : Net)
    (data contentType httpType : String) (payload : Option String)
    (headers : List (String × String)) (trace : Bool) :
    a.post net "" data contentType trace = .error PyErr.indexError ∧
    a.delete net "" data contentType trace = .error PyErr.indexError ∧
    a.get net "" trace = .error PyErr.indexError ∧
    a.sendHttpRequest net "" httpType payload headers trace =
      .error PyErr.indexError :=
  ⟨rfl, rfl, rfl, rfl⟩

/-- C7: every HttpOperationStatus reports finished as true, detail as the
output of its held response value, and error as the error of its held
response value. -/
theorem status_finished_detail_error (s : HttpOperationStatus) :
    s.finished = true ∧
    s.detail = s.httpResponse.output ∧
    s.error = s.httpResponse.error :=
  ⟨rfl, rfl, rfl⟩

/-- C4: ok() is true iff the code is in the 2xx range, finished_ok
delegates to ok() of the held response value, and a code of -1 gives
finished_ok false. -/
theorem ok_iff_2xx_and_finished_ok_delegates (r : HttpResponseType)
    (s : HttpOperationStatus) :
    (r.ok = true ↔ 200 ≤ r.retcode ∧ r.retcode < 300) ∧
    s.finished_ok = s.httpResponse.ok ∧
    (s.httpResponse.retcode = -1 → s.finished_ok = false) := by
  refine ⟨by simp [HttpResponseType.ok], rfl, ?_⟩
  intro h
  simp [HttpOperationStatus.finished_ok, HttpResponseType.ok, h]

/-- Closed instance of the C4 theorem at a concrete response and status. -/
theorem ok_iff_2xx_and_finished_ok_delegates_witness :
    let r : HttpResponseType :=
      { retcode := -1, output := none, error := some "err" }
    let s : HttpOperationStatus :=
      { operation := sampleOperation, httpResponse := r,
        statusClass := StatusClass.httpOperationStatus }
    (r.ok = true ↔ 200 ≤ r.retcode ∧ r.retcode < 300) ∧
    s.finished_ok = s.httpResponse.ok ∧
    (s.httpResponse.retcode = -1 → s.finished_ok = false) :=
  ok_iff_2xx_and_finished_ok_delegates
    { retcode := -1, output := none, error := some "err" }
    { operation := sampleOperation,
      httpResponse := { retcode := -1, output := none, error := some "err" },
      statusClass := StatusClass.httpOperationStatus }

/-- C8: on every status object of the synchronous class, id is None and
timed_out is false, regardless of the held response. -/
theorem synchronous_status_id_none_timed_out_false
    (s : HttpOperationStatus)
    (h : s.statusClass = StatusClass.synchronousHttpOperationStatus) :
    SynchronousHttpOperationStatus.id s = none ∧
    SynchronousHttpOperationStatus.timed_out s = false :=
  ⟨rfl, rfl⟩

/-- Closed instance of the C8 theorem at a concrete synchronous status. -/
theorem synchronous_status_id_none_timed_out_false_witness :
    let s : HttpOperationStatus :=
      { operation := sampleOperation,
        httpResponse := { retcode := 500, output := none, error := some "x" },
        statusClass := StatusClass.synchronousHttpOperationStatus }
    SynchronousHttpOperationStatus.id s = none ∧
    SynchronousHttpOperationStatus.timed_out s = false :=
  synchronous_status_id_none_timed_out_false
    { operation := sampleOperation,
      httpResponse := { retcode := 500, output := none, error := some "x" },
      statusClass := StatusClass.synchronousHttpOperationStatus }
    rfl

/-- C2: for every call of the transmission routine on a nonempty path, a
transport-level failure yields code -1 with empty output and the
stringified exception as error; an HTTP error reply yields the reply code
with the reply body as error and empty output; a 2xx-style successful
reply yields the reply code with the reply body as output and empty
error; and the call always returns a response value, never an
exception. -/
theorem sendHttpRequest_classifies_outcomes (a : HttpAgent) (net : Net)
    (path httpType : String) (data : Option String)
    (headers : List (String × String)) (trace : Bool) (h : path ≠ "") :
    (∀ msg, net (a.requestUrl path) httpType data headers =
        HttpOutcome.urlError msg →
      a.sendHttpRequest net path httpType data headers trace =
        .ok { retcode := -1, output := none, error := some msg }) ∧
    (∀ code body, net (a.requestUrl path) httpType data headers =
        HttpOutcome.httpError code body →
      a.sendHttpRequest net path httpType data headers trace =
        .ok { retcode := (code : Int), output := none,
              error := some body }) ∧
    (∀ code body, net (a.requestUrl path) httpType data headers =
        HttpOutcome.success code body →
      a.sendHttpRequest net path httpType data headers trace =
        .ok { retcode := (code : Int), output := some body,
              error := none }) ∧
    (∃ resp, a.sendHttpRequest net path httpType data headers trace =
      .ok resp) := by
  obtain ⟨c, rest, hcons⟩ : ∃ c rest, path.data = c :: rest := by
    cases hpd : path.data with
    | nil =>
      exfalso
      apply h
      have := stringMk_data path
      rw [hpd] at this
      exact this.symm
    | cons c rest => exact ⟨c, rest, rfl⟩
  refine ⟨?_, ?_, ?_, ?_⟩
  · intro msg hnet
    simp [HttpAgent.sendHttpRequest, hcons, hnet]
  · intro code body hnet
    simp [HttpAgent.sendHttpRequest, hcons, hnet]
  · intro code body hnet
    simp [HttpAgent.sendHttpRequest, hcons, hnet]
  · cases hnet : net (a.requestUrl path) httpType data headers with
    | success code body =>
      exact ⟨{ retcode := (code : Int), output := some body, error := none },
        by simp [HttpAgent.sendHttpRequest, hcons, hnet]⟩
    | httpError code body =>
      exact ⟨{ retcode := (code : Int), output := none, error := some body },
        by simp [HttpAgent.sendHttpRequest, hcons, hnet]⟩
    | urlError msg =>
      exact ⟨{ retcode := -1, output := none, error := some msg },
        by simp [HttpAgent.sendHttpRequest, hcons, hnet]⟩

/-- Closed instance of the C2 theorem: on a network that always answers
200, sending to the path widgets returns a response value. -/
theorem sendHttpRequest_classifies_outcomes_witness :
    ∃ resp, (HttpAgent.init "host:80" "http").sendHttpRequest netAlwaysOk
      "widgets" "GET" none [] true = .ok resp :=
  (sendHttpRequest_classifies_outcomes (HttpAgent.init "host:80" "http")
    netAlwaysOk "widgets" "GET" none [] true (by decide)).2.2.2

/-- C5: every response value the transmission routine returns has exactly
one of output and error populated, and a code of -1 implies error is
populated and output is empty. -/
theorem sendHttpRequest_response_invariant (a : HttpAgent) (net : Net)
    (path httpType : String) (data : Option String)
    (headers : List (String × String)) (trace : Bool)
    (r : HttpResponseType)
    (h : a.sendHttpRequest net path httpType data headers trace = .ok r) :
    r.output.isSome = !r.error.isSome ∧
    (r.retcode = -1 → r.error.isSome = true ∧ r.output = none) := by
  unfold HttpAgent.sendHttpRequest at h
  cases hpd : path.data with
  | nil =>
    rw [hpd] at h
    exact absurd h (by simp)
  | cons c rest =>
    rw [hpd] at h
    cases hnet : net (a.requestUrl path) httpType data headers with
    | success code body =>
      rw [hnet] at h
      injection h with h1
      subst h1
      refine ⟨rfl, ?_⟩
      intro hc
      exfalso
      simp only at hc
      omega
    | httpError code body =>
      rw [hnet] at h
      injection h with h1
      subst h1
      exact ⟨rfl, fun _ => ⟨rfl, rfl⟩⟩
    | urlError msg =>
      rw [hnet] at h
      injection h with h1
      subst h1
      exact ⟨rfl, fun _ => ⟨rfl, rfl⟩⟩

/-- Closed instance of the C5 theorem at a concrete successful request. -/
theorem sendHttpRequest_response_invariant_witness :
    let r : HttpResponseType :=
      { retcode := 200, output := some "body", error := none }
    r.output.isSome = !r.error.isSome ∧
    (r.retcode = -1 → r.error.isSome = true ∧ r.output = none) :=
  sendHttpRequest_response_invariant (HttpAgent.init "host:80" "http")
    netAlwaysOk "widgets" "GET" none [] true
    { retcode := 200, output := some "body", error := none } rfl

/-- C6: for every agent configuration and nonempty path not already
starting with a slash, the request URL built for the slashed and the
unslashed spelling of the path is the same protocol://address/path
string; prefixing a second slash is NOT stripped, so exactly one leading
slash is removed; consequently the whole transmission routine treats the
two spellings identically on every network. -/
theorem requestUrl_strips_exactly_one_leading_slash (a : HttpAgent)
    (p : String) (hne : p ≠ "") (hns : p.data.head? ≠ some '/') :
    a.requestUrl ("/" ++ p) = a.protocol ++ "://" ++ a.address ++ "/" ++ p ∧
    a.requestUrl p = a.protocol ++ "://" ++ a.address ++ "/" ++ p ∧
    a.requestUrl ("/" ++ ("/" ++ p)) =
      a.protocol ++ "://" ++ a.address ++ "/" ++ ("/" ++ p) ∧
    (∀ (net : Net) (httpType : String) (data : Option String)
        (headers : List (String × String)) (trace : Bool),
      a.sendHttpRequest net ("/" ++ p) httpType data headers trace =
        a.sendHttpRequest net p httpType data headers trace) := by
  have hdata : ("/" ++ p).data = '/' :: p.data := by
    rw [String.data_append]
    rfl
  have hdata2 : ("/" ++ ("/" ++ p)).data = '/' :: ("/" ++ p).data := by
    rw [String.data_append]
    rfl
  obtain ⟨c, rest, hp⟩ : ∃ c rest, p.data = c :: rest := by
    cases hpd : p.data with
    | nil =>
      exfalso
      apply hne
      have := stringMk_data p
      rw [hpd] at this
      exact this.symm
    | cons c rest => exact ⟨c, rest, rfl⟩
  have hc : c ≠ '/' := by
    intro heq
    apply hns
    rw [hp, heq]
    rfl
  have h1 : a.requestUrl ("/" ++ p) =
      a.protocol ++ "://" ++ a.address ++ "/" ++ p := by
    simp [HttpAgent.requestUrl, hdata, stringMk_data]
  have h2 : a.requestUrl p =
      a.protocol ++ "://" ++ a.address ++ "/" ++ p := by
    simp [HttpAgent.requestUrl, hp, hc]
  have hmk : String.mk ('/' :: p.data) = "/" ++ p := by
    rw [← hdata, stringMk_data]
  have h3 : a.requestUrl ("/" ++ ("/" ++ p)) =
      a.protocol ++ "://" ++ a.address ++ "/" ++ ("/" ++ p) := by
    simp [HttpAgent.requestUrl, hdata2, hmk]
  refine ⟨h1, h2, h3, ?_⟩
  intro net httpType data headers trace
  have hu : a.requestUrl ("/" ++ p) = a.requestUrl p := by rw [h1, h2]
  simp only [HttpAgent.sendHttpRequest, hdata, hp, hu]

/-- Closed instance of the C6 theorem at the path widgets. -/
theorem requestUrl_strips_exactly_one_leading_slash_witness :
    (HttpAgent.init "host:80" "http").requestUrl ("/" ++ "widgets") =
      "http" ++ "://" ++ "host:80" ++ "/" ++ "widgets" ∧
    (HttpAgent.init "host:80" "http").requestUrl "widgets" =
      "http" ++ "://" ++ "host:80" ++ "/" ++ "widgets" :=
  let h := requestUrl_strips_exactly_one_leading_slash
    (HttpAgent.init "host:80" "http") "widgets" (by decide) (by decide)
  ⟨h.1, h.2.1⟩

/-- C1 (code bug): an operation created by the factory is already bound
to the creating agent, yet calling execute with no agent argument does
not issue the request through the bound agent: line 262 of the source
passes the ARGUMENT agent (defaulting to None) to the invocation, so the
call raises AttributeError on NoneType instead of returning a status. -/
theorem bound_operation_execute_without_argument_fails :
    (((HttpAgent.init "host:80" "http").new_post_operation "test"
        "/widgets" "payload" none).map
      (fun op => op.execute netAlwaysOk PyAgentVal.pyNone true)) =
      .ok (.error (PyErr.attributeError "NoneType")) := by
  rfl

/-- C3 (code bug): the factory stores the requested status class on the
operation but the invocation path builds the status from the private
status class of the agent, which its constructor fixes to
HttpOperationStatus; so the operation is bound to the creating agent,
yet executing it yields a status of class HttpOperationStatus even when
the synchronous class was requested. -/
theorem factory_status_class_ignored_on_execute :
    (((HttpAgent.init "host:80" "http").new_post_operation "test"
        "/widgets" "payload"
        (some StatusClass.synchronousHttpOperationStatus)).map
      (fun op =>
        (op.agent,
         op.statusClassField,
         (op.execute netAlwaysOk
             (PyAgentVal.http (HttpAgent.init "host:80" "http")) true).map
           (fun r => r.2.statusClass)))) =
      .ok (PyAgentVal.http (HttpAgent.init "host:80" "http"),
           some StatusClass.synchronousHttpOperationStatus,
           .ok StatusClass.httpOperationStatus) := by
  rfl

/-- C9 counterexample: constructing an operation with the falsy
non-HttpAgent value 0 (class name int) does not raise a TypeError; the
constructor only checks truthy values, so the operation is built with
the bogus agent stored. -/
theorem construct_with_falsy_non_agent_not_rejected :
    BaseHttpOperation.init HttpVerb.post "test" "/widgets" "payload"
      (PyAgentVal.otherVal false "int") none =
      .ok { verb := HttpVerb.post, title := "test", path := "/widgets",
            data := "payload", agent := PyAgentVal.otherVal false "int",
            statusClassField := none } := by
  rfl

/-- C9 (amended): constructing an operation with a TRUTHY non-HttpAgent
agent raises a TypeError, and calling execute on an operation whose
stored agent is falsy with a non-HttpAgent argument (None included)
raises a TypeError whose result does not depend on the network, so no
request is attempted. -/
theorem api_misuse_type_errors (verb : HttpVerb)
    (title path data : String) (cls : Option StatusClass)
    (v : PyAgentVal) (op : BaseHttpOperation) (agent : PyAgentVal)
    (net : Net) (trace : Bool) :
    (v.truthy = true → v.isHttpAgent = false →
      BaseHttpOperation.init verb title path data v cls =
        .error (PyErr.typeError ("agent no HttpAgent: " ++ v.className))) ∧
    (op.agent.truthy = false → agent.isHttpAgent = false →
      op.execute net agent trace =
        .error (PyErr.typeError
          ("agent no HttpAgent: " ++ agent.className))) := by
  constructor
  · intro h1 h2
    simp [BaseHttpOperation.init, h1, h2]
  · intro h1 h2
    simp [BaseHttpOperation.execute, h1, h2]

/-- Closed instance of the amended C9 theorem: a truthy stub agent is
rejected at construction, and executing the sample unbound operation
with no agent raises the TypeError. -/
theorem api_misuse_type_errors_witness :
    BaseHttpOperation.init HttpVerb.post "t" "p" "d"
      (PyAgentVal.otherVal true "StubAgent") none =
      .error (PyErr.typeError ("agent no HttpAgent: " ++ "StubAgent")) ∧
    sampleOperation.execute netAlwaysOk PyAgentVal.pyNone true =
      .error (PyErr.typeError ("agent no HttpAgent: " ++ "NoneType")) :=
  ⟨(api_misuse_type_errors HttpVerb.post "t" "p" "d" none
      (PyAgentVal.otherVal true "StubAgent") sampleOperation
      PyAgentVal.pyNone netAlwaysOk true).1 rfl rfl,
   (api_misuse_type_errors HttpVerb.post "t" "p" "d" none
      (PyAgentVal.otherVal true "StubAgent") sampleOperation
      PyAgentVal.pyNone netAlwaysOk true).2 rfl rfl⟩
